import Mathlib

/-!
Shallow embedding of the WellDiary OCR server scripts
(`src/server/*.py`) and proofs about the claims of the specification.

External effects (pytesseract calls, subprocess invocations, the
filesystem, the process pool, randomness) are modelled as explicit
oracle parameters; the control flow, the selection logic, the heuristic
scoring formulas and the emitted JSON records are translated from the
Python sources.  Python floats are modelled as rationals.
-/

/-- The flat JSON record emitted by every script:
`{success, text?, confidence?, error?, note?, best_variant?, best_orientation?}`. -/
structure JsonResult where
  success : Bool
  text : Option String := none
  confidence : Option ℚ := none
  error : Option String := none
  note : Option String := none
  best_variant : Option ℕ := none
  best_orientation : Option ℕ := none
  deriving Repr, DecidableEq

/-- Number of alphanumeric characters of a string
(Python `sum(c.isalnum() for c in text)`). -/
def alnumCount (s : String) : ℕ := (s.data.filter Char.isAlphanum).length

/-- Python `str.strip()`: drop leading and trailing whitespace. -/
def pyStrip (s : String) : String :=
  String.mk
    (((s.data.dropWhile Char.isWhitespace).reverse.dropWhile Char.isWhitespace).reverse)

/-- Python `str.split()` with no separator: the nonempty chunks between
whitespace runs. -/
def pySplitWhitespace (s : String) : List String :=
  ((s.data.splitOnP Char.isWhitespace).map String.mk).filter (fun w => !w.isEmpty)

/-- Python `' '.join(text.split())`: collapse whitespace runs. -/
def normalizeSpace (s : String) : String :=
  String.intercalate " " (pySplitWhitespace s)

/-- The word rows kept from a `pytesseract.image_to_data` result:
those whose text is nonempty after `strip()`. -/
def keptWords (words : List (String × ℚ)) : List (String × ℚ) :=
  words.filter (fun w => !(pyStrip w.1).isEmpty)

/-- Text/confidence extraction from word-level data
(`optimized_trocr.py` lines 272-288): join the kept words with spaces
and average their confidences; `("", 0)` when no word is kept. -/
def extractTextConf (words : List (String × ℚ)) : String × ℚ :=
  let kept := keptWords words
  if kept.isEmpty then ("", 0)
  else (String.intercalate " " (kept.map Prod.fst),
        (kept.map Prod.snd).sum / (kept.length : ℚ))

/-- Quality score of `optimized_trocr.process_image_variant`
(lines 290-303): `0` for blank text, otherwise
`confidence*0.6 + min(len,200)/100*0.2 + alnum_ratio*100*0.2`. -/
def optQualityScore (text : String) (confidence : ℚ) : ℚ :=
  if (pyStrip text).isEmpty then 0
  else
    let charRatio : ℚ := (alnumCount text : ℚ) / (max 1 text.length : ℕ)
    let textLengthScore : ℚ := (min text.length 200 : ℕ) / 100
    confidence * (6/10) + textLengthScore * (2/10) + charRatio * 100 * (2/10)

/-- One entry of the result list built by `optimized_trocr.py`. -/
structure AttemptResult where
  variant : ℕ
  orientation : ℕ
  text : String
  confidence : ℚ
  quality_score : ℚ
  error : Option String := none
  deriving Repr, DecidableEq

/-- `optimized_trocr.process_image_variant`: one `(variant, orientation)`
attempt.  The pytesseract call is an oracle returning either word-level
data or a raised exception; the exception branch (lines 317-326)
produces the zero-score record. -/
def process_image_variant (ocr : Except String (List (String × ℚ)))
    (variant orientation : ℕ) : AttemptResult :=
  match ocr with
  | .error e =>
      { variant := variant, orientation := orientation, text := "",
        confidence := 0, quality_score := 0, error := some e }
  | .ok words =>
      let tc := extractTextConf words
      { variant := variant, orientation := orientation, text := tc.1,
        confidence := tc.2, quality_score := optQualityScore tc.1 tc.2 }

/-- `preprocessing_variants = [0, 2, 5, 7, 10]` (line 405). -/
def preprocessing_variants : List ℕ := [0, 2, 5, 7, 10]

/-- `orientations = [0, 270]` (line 409). -/
def sweepOrientations : List ℕ := [0, 270]

/-- The task list of `recognize_text_parallel` (lines 412-414). -/
def sweepTasks : List (ℕ × ℕ) :=
  preprocessing_variants.flatMap (fun v => sweepOrientations.map (fun o => (v, o)))

/-- All attempt results of the parallel sweep, one per task
(`executor.map(process_image_variant, tasks)`, lines 419-423). -/
def sweepResults (ocr : ℕ → ℕ → Except String (List (String × ℚ))) :
    List AttemptResult :=
  sweepTasks.map (fun p => process_image_variant (ocr p.1 p.2) p.1 p.2)

/-- Descending comparison on `quality_score`, the sort key of
`results.sort(key=lambda x: x["quality_score"], reverse=True)` (line 430). -/
def qualityGE (a b : AttemptResult) : Prop := b.quality_score ≤ a.quality_score

instance : DecidableRel qualityGE :=
  fun a b => inferInstanceAs (Decidable (b.quality_score ≤ a.quality_score))

instance : IsTotal AttemptResult qualityGE :=
  ⟨fun a b => (le_total b.quality_score a.quality_score).imp id id⟩

instance : IsTrans AttemptResult qualityGE :=
  ⟨fun _ _ _ h1 h2 => le_trans h2 h1⟩

/-- The stable descending sort of the result list (Python `list.sort` is
stable; modelled by insertion sort, which is stable as well). -/
def sortResults (l : List AttemptResult) : List AttemptResult :=
  List.insertionSort qualityGE l

/-- The record returned for an empty result list (line 427 returns
`"", 0, 0, 0`). -/
def defaultAttempt : AttemptResult :=
  { variant := 0, orientation := 0, text := "", confidence := 0, quality_score := 0 }

/-- `optimized_trocr.recognize_text_parallel` (lines 392-448): run every
task, sort by quality score descending, post-process the best text and
return `(text, confidence, variant, orientation)`.  The regex
post-processing chain `post_process_text` is an opaque transformation
parameter `pp`; no claim depends on its content. -/
def recognize_text_parallel (pp : String → String)
    (ocr : ℕ → ℕ → Except String (List (String × ℚ))) : String × ℚ × ℕ × ℕ :=
  let results := sweepResults ocr
  if results.isEmpty then ("", 0, 0, 0)
  else
    let best := (sortResults results).headD defaultAttempt
    (pp best.text, best.confidence, best.variant, best.orientation)

/-- `optimized_trocr.main` (lines 450-488).  `.ok none` models an exit
without any JSON on stdout (usage message, missing file); `.error e`
models an exception propagating out of `main`, which has no handler:
the only uncaught step is the process-pool machinery itself
(`ProcessPoolExecutor` construction / `executor.map`), modelled by
`poolFailure`. -/
def optimized_cli (args : List String) (fileExists : String → Bool)
    (poolFailure : Option String) (pp : String → String)
    (ocr : ℕ → ℕ → Except String (List (String × ℚ))) :
    Except String (Option JsonResult) :=
  if args.length < 2 then .ok none
  else if !(fileExists (args.getD 1 "")) then .ok none
  else
    match poolFailure with
    | some e => .error e
    | none =>
        let r := recognize_text_parallel pp ocr
        .ok (some { success := !r.1.isEmpty, text := some r.1,
                    confidence := some r.2.1,
                    best_variant := some r.2.2.1,
                    best_orientation := some r.2.2.2 })

/-- Whether a run of `optimized_trocr.main` printed a JSON object. -/
def jsonEmitted : Except String (Option JsonResult) → Bool
  | .ok (some _) => true
  | _ => false

/- ---------------------------------------------------------------
trocr.py
--------------------------------------------------------------- -/

/-- Quality score of `trocr.perform_handwriting_recognition`
(lines 371-383): `confidence * min(1, max(1,len)/100) * alnum_ratio * 1.5`. -/
def trocrQuality (text : String) (confidence : ℚ) : ℚ :=
  let totalLength : ℚ := (max 1 text.length : ℕ)
  let charRatio : ℚ := (alnumCount text : ℚ) / totalLength
  let lengthFactor : ℚ := min 1 (totalLength / 100)
  confidence * lengthFactor * charRatio * (3/2)

/-- The running best of the `trocr.py` sweep: the variables
`best_text`, `best_confidence`, `best_combo` of lines 336-338. -/
structure BestState where
  best_text : String
  best_confidence : ℚ
  best_combo : Option (ℕ × ℕ)
  deriving Repr, DecidableEq

/-- The `(variant, orientation)` combinations of the `trocr.py` sweep,
in loop order: `range(10) × [0, 90, 180, 270]` (lines 333-334). -/
def trocrCombos : List (ℕ × ℕ) :=
  (List.range 10).flatMap (fun v => [0, 90, 180, 270].map (fun o => (v, o)))

/-- The best-result update of lines 388-393, exactly as written:
the new `quality_score` is compared against `best_confidence`, and on
success `best_confidence` is set to the attempt's `confidence`. -/
def trocrUpdate (s : BestState) (v o : ℕ) (text : String) (confidence : ℚ) :
    BestState :=
  if trocrQuality text confidence > s.best_confidence then
    { best_text := text, best_confidence := confidence, best_combo := some (v, o) }
  else s

/-- The full sweep of `trocr.perform_handwriting_recognition`
(lines 352-393): fold the update over all combinations; the per-combo
`(text, confidence)` produced by `recognize_text` is an oracle. -/
def trocrSweep (oracle : ℕ → ℕ → String × ℚ) : BestState :=
  trocrCombos.foldl
    (fun s p => trocrUpdate s p.1 p.2 (oracle p.1 p.2).1 (oracle p.1 p.2).2)
    { best_text := "", best_confidence := 0, best_combo := none }

/-- `trocr.perform_handwriting_recognition` result record (lines 395-419),
with the regex post-processing abstracted as `pp`. -/
def perform_handwriting_recognition (pp : String → String)
    (oracle : ℕ → ℕ → String × ℚ) : JsonResult :=
  let st := trocrSweep oracle
  if st.best_text.isEmpty then
    { success := false, error := some "No valid text detected in image" }
  else
    { success := true, text := some (pp st.best_text),
      confidence := some st.best_confidence,
      best_variant := st.best_combo.map Prod.fst,
      best_orientation := st.best_combo.map Prod.snd }

/-- The broad `except` of `perform_handwriting_recognition`
(lines 421-428): a raised exception becomes `{success: false, error}`. -/
def perform_handwriting_recognition_guarded (body : Except String JsonResult) :
    JsonResult :=
  match body with
  | .ok r => r
  | .error e => { success := false, error := some e }

/-- `trocr.py __main__` (lines 484-499): without an image-path argument
it still prints a JSON error object; otherwise it prints the recognition
result (the guarded function is total). -/
def trocr_main (args : List String) (raised : Option String)
    (pp : String → String) (oracle : ℕ → ℕ → String × ℚ) : Option JsonResult :=
  if args.length < 2 then
    some { success := false, error := some "No image path provided" }
  else
    some (perform_handwriting_recognition_guarded
      (match raised with
       | some e => .error e
       | none => .ok (perform_handwriting_recognition pp oracle)))

/- ---------------------------------------------------------------
Counterexample input for claim C1 (trocr.py selection)
--------------------------------------------------------------- -/

/-- Ten alphanumeric characters: quality `90 * 0.1 * 1 * 1.5 = 13.5`
at confidence 90. -/
def c1TextA : String := "aaaaaaaaaa"

/-- Twenty alphanumeric characters: quality `90 * 0.2 * 1 * 1.5 = 27`
at confidence 90. -/
def c1TextB : String := "bbbbbbbbbbbbbbbbbbbb"

/-- A sweep oracle on which `trocr.py` keeps a combination that does not
have the maximal quality score: combo (0,0) is accepted first and sets
`best_confidence = 90`; combo (0,90) has the strictly larger quality 27
but `27 > 90` fails, so it is rejected. -/
def c1Oracle (v o : ℕ) : String × ℚ :=
  if v = 0 ∧ o = 0 then (c1TextA, 90)
  else if v = 0 ∧ o = 90 then (c1TextB, 90)
  else ("", 0)

/- ---------------------------------------------------------------
Shared tessdata fallback (kraken_api.py 137-140, light-ocr.py 56-59,
trocr.py recognize_text 222-225 duplicate the same four lines)
--------------------------------------------------------------- -/

/-- Language fallback: a non-default language whose traineddata file is
absent from the tessdata directory is replaced by `eng`. -/
def tessdata_language_fallback (tessdataHas : String → Bool) (language : String) :
    String :=
  if language ≠ "eng" ∧ tessdataHas language = false then "eng" else language

/- ---------------------------------------------------------------
light-ocr.py
--------------------------------------------------------------- -/

/-- `light-ocr.perform_quick_ocr` (lines 19-105).  `imgLoadOk` models
`cv2.imread` returning an image rather than `None`; `dataCall` is the
`image_to_data` oracle for the resolved language (`.error` = raised,
caught by the broad handler); `strCall` is the `image_to_string`
fallback used when no word carries confidence data. -/
def perform_quick_ocr (tessdataHas fileExists : String → Bool) (imgLoadOk : Bool)
    (dataCall : String → Except String (List (String × ℚ)))
    (strCall : String → Except String String)
    (image_path language : String) : JsonResult :=
  if !fileExists image_path then
    { success := false, error := some ("Image file not found: " ++ image_path) }
  else if !imgLoadOk then
    { success := false, error := some "Failed to load image" }
  else
    let language := tessdata_language_fallback tessdataHas language
    match dataCall language with
    | .error e => { success := false, error := some e }
    | .ok words =>
        let kept := keptWords words
        if kept.isEmpty then
          match strCall language with
          | .error e => { success := false, error := some e }
          | .ok t =>
              { success := true, text := some (normalizeSpace t),
                confidence := some 50 }
        else
          { success := true,
            text := some (normalizeSpace (String.intercalate " " (kept.map Prod.fst))),
            confidence := some ((kept.map Prod.snd).sum / (kept.length : ℚ)) }

/-- `light-ocr.py __main__` (lines 107-122): without an image path it
still prints a JSON error object; otherwise it prints the result of
`perform_quick_ocr`, which is total. -/
def light_ocr_main (args : List String) (tessdataHas fileExists : String → Bool)
    (imgLoadOk : Bool) (dataCall : String → Except String (List (String × ℚ)))
    (strCall : String → Except String String) : Option JsonResult :=
  if args.length < 2 then
    some { success := false, error := some "No image path provided" }
  else
    some (perform_quick_ocr tessdataHas fileExists imgLoadOk dataCall strCall
      (args.getD 1 "") (args.getD 2 "eng"))

/- ---------------------------------------------------------------
simple_trocr.py
--------------------------------------------------------------- -/

/-- How far the body of `simple_trocr.py` got before failing: the PIL
load/enhance steps run before the temp file is created (lines 45-53),
`img.save` and the tesseract subprocess run after it (lines 56-67);
`unlinkRaised` is the unguarded `os.unlink` of line 86 raising (still
inside the `try`, after the result was built, so the `except` replaces
the result and the temp file stays); `completed` means the subprocess
returned `(returncode, stdout, stderr)` and the unlink succeeded. -/
inductive SimpleBody where
  | loadRaised (e : String)
  | saveRaised (e : String)
  | popenRaised (e : String)
  | unlinkRaised (e : String)
  | completed (returncode : Int) (stdout stderr : String)
  deriving Repr, DecidableEq

/-- Language parameter passed to tesseract by `simple_trocr.py`
(line 62) and `real_trocr.py` (line 77): `ces` gets `eng` appended;
no traineddata existence check is made. -/
def simple_lang_param (language : String) : String :=
  if language = "ces" then language ++ "+eng" else language

/-- `simple_trocr.py` as a whole script (lines 14-96).  First component:
the JSON object printed to stdout (`none` = exited after the usage
message without JSON, lines 15-17).  Second component: whether the temp
file persists after the script ends (the `os.unlink` of line 86 is
inside the `try`, so an exception raised after temp creation skips it). -/
def simple_trocr_script (args : List String) (fileExists : String → Bool)
    (body : String → SimpleBody) : Option JsonResult × Bool :=
  if args.length < 2 then (none, false)
  else
    let image_path := args.getD 1 ""
    let language := args.getD 2 "eng"
    if !fileExists image_path then
      (some { success := false, text := some "",
              error := some ("Soubor " ++ image_path ++ " nebyl nalezen") }, false)
    else
      match body (simple_lang_param language) with
      | .loadRaised e =>
          (some { success := false, text := some "",
                  error := some ("Zpracování selhalo: " ++ e) }, false)
      | .saveRaised e =>
          (some { success := false, text := some "",
                  error := some ("Zpracování selhalo: " ++ e) }, true)
      | .popenRaised e =>
          (some { success := false, text := some "",
                  error := some ("Zpracování selhalo: " ++ e) }, true)
      | .unlinkRaised e =>
          (some { success := false, text := some "",
                  error := some ("Zpracování selhalo: " ++ e) }, true)
      | .completed rc out err =>
          if rc ≠ 0 then
            (some { success := false, text := some "",
                    error := some ("Tesseract vrátil chybu: " ++ err) }, false)
          else
            (some { success := true, text := some (pyStrip out),
                    confidence := some (17/20) }, false)

/- ---------------------------------------------------------------
real_trocr.py
--------------------------------------------------------------- -/

/-- How far the body of `real_trocr.py` got: `preprocessFailed` is
`preprocess_image` returning `False` (its own handler caught the
exception, lines 58-60, before the temp file was written); the
subprocess steps run after the temp file exists.  A completed run also
records whether the `os.remove` of lines 85-88 succeeded: that remove
sits in its own `try/except: pass`, so its failure is swallowed and the
run still prints its normal JSON while the temp file stays behind. -/
inductive RealBody where
  | preprocessFailed
  | popenRaised (e : String)
  | completed (returncode : Int) (stdout stderr : String) (removeOk : Bool)
  deriving Repr, DecidableEq

/-- Post-processing of `real_trocr.py` line 103:
`' '.join(line.strip() for line in text.splitlines() if line.strip())`. -/
def real_postprocess (text : String) : String :=
  String.intercalate " "
    ((((text.data.splitOn '\n').map String.mk).map pyStrip).filter
      (fun l => !l.isEmpty))

/-- `real_trocr.py` as a whole script (lines 14-119); components as in
`simple_trocr_script`.  The temp removal of lines 85-88 happens before
the returncode check with its failure swallowed by `except: pass`, so a
completed run leaves the temp file exactly when the remove failed; a
subprocess exception skips the removal entirely. -/
def real_trocr_script (args : List String) (fileExists : String → Bool)
    (body : String → RealBody) : Option JsonResult × Bool :=
  if args.length < 2 then (none, false)
  else
    let image_path := args.getD 1 ""
    let language := args.getD 2 "eng"
    if !fileExists image_path then
      (some { success := false, text := some "",
              error := some ("Soubor " ++ image_path ++ " nebyl nalezen") }, false)
    else
      match body (simple_lang_param language) with
      | .preprocessFailed =>
          (some { success := false, text := some "",
                  error := some "Chyba při předzpracování obrazu" }, false)
      | .popenRaised e =>
          (some { success := false, text := some "",
                  error := some ("Zpracování selhalo: " ++ e) }, true)
      | .completed rc out err removeOk =>
          if rc ≠ 0 then
            (some { success := false, text := some "",
                    error := some ("Tesseract vrátil chybu: " ++ err) }, !removeOk)
          else
            (some { success := true,
                    text := some (real_postprocess (pyStrip out)),
                    confidence := some (17/20) }, !removeOk)

/- ---------------------------------------------------------------
fallback_trocr.py
--------------------------------------------------------------- -/

/-- The canned Czech texts (lines 20-25); the third entry interpolates
two `random.randint` draws, passed here as `d` and `m`. -/
def czech_texts (d m : ℕ) : List String :=
  ["Dnes jsem měl/a příjemný den. Nálada: 8/10. Spal/a jsem asi 7 hodin.",
   "Datum: 12.5.2025\nNálada: 7/10\nSpánek: 6.5 hodin\nDnes jsem šel/šla běhat a pak jsem pracoval/a na projektu.",
   "Datum: " ++ toString d ++ "." ++ toString m ++
     ".2025\nCítím se dobře, dnes je můj den, tak 8/10. Spal jsem 7.5 hodiny, což je lepší než minule.",
   "Dnešní den byl úspěšný. Cvičil jsem jógu a pak jsem si šel zaplavat. Nálada: 9/10. Spánek: 8 hodin."]

/-- The canned English texts (lines 28-33); the third entry interpolates
two `random.randint` draws, passed here as `m` and `d`. -/
def english_texts (m d : ℕ) : List String :=
  ["Today was a good day. Mood: 8/10. Sleep: 7 hours.",
   "Date: 05/12/2025\nMood: 7/10\nSleep: 6.5 hours\nToday I went for a run and then worked on my project.",
   "Date: " ++ toString m ++ "/" ++ toString d ++
     "/2025\nFeeling good today, solid 8/10. Slept for 7.5 hours which is better than before.",
   "Today was successful. I did some yoga and then went swimming. Mood: 9/10. Sleep: 8 hours."]

/-- `fallback_trocr.py` (whole script): the language defaults to `eng`
when fewer than three arguments are given (lines 12-17); the text is
`random.choice` of the Czech list for `ces`, of the English list
otherwise (lines 36-39); the result always has `success: true` and
confidence `0.85` (lines 42-47).  The random draws are the naturals
`d1 m1 m2 d2` and the choice index. -/
def fallback_script (args : List String) (d1 m1 m2 d2 : ℕ) (choice : Fin 4) :
    JsonResult :=
  let language := args.getD 2 "eng"
  let recognized_text :=
    if language = "ces" then
      (czech_texts d1 m1).get (Fin.cast (by rfl) choice)
    else
      (english_texts m2 d2).get (Fin.cast (by rfl) choice)
  { success := true, text := some recognized_text, confidence := some (17/20),
    note := some "This is a fallback text for demonstration purposes" }

/- ---------------------------------------------------------------
kraken_api.py
--------------------------------------------------------------- -/

/-- The running best of `kraken_api.recognize_handwritten_text`
(lines 162-165). -/
structure KrakenBest where
  text : String
  confidence : ℚ
  deriving Repr, DecidableEq

/-- The best-result update of lines 196-201: keep the candidate when its
confidence is higher, or when confidences are within 0.1 and the text
is longer. -/
def krakenUpdate (best : KrakenBest) (t : String) (c : ℚ) : KrakenBest :=
  if best.confidence < c ∨
      (|c - best.confidence| < 1/10 ∧ best.text.length < t.length) then
    ⟨t, c⟩
  else best

/-- One `(variant, psm, oem)` OCR attempt of the kraken sweep:
`raised` = the inner `try` caught an exception (lines 202-204);
`evaluated` = `image_to_data` returned word rows, with the
`image_to_string` fallback used when no row survives (lines 188-191). -/
inductive KrakenAttempt where
  | raised (e : String)
  | evaluated (words : List (String × ℚ)) (fallbackStr : Except String String)
  deriving Repr

/-- The candidate `(text, confidence)` an attempt contributes, or `none`
when it was skipped.  Confidence is the mean word confidence divided by
100 (line 194), or the fixed 0.5 on the string-fallback path (line 191). -/
def kraken_attempt_result : KrakenAttempt → Option (String × ℚ)
  | .raised _ => none
  | .evaluated words fb =>
      let kept := keptWords words
      if kept.isEmpty then
        match fb with
        | .error _ => none
        | .ok s => some (s, 1/2)
      else
        some (String.intercalate " " (kept.map Prod.fst),
              (kept.map Prod.snd).sum / (kept.length : ℚ) / 100)

/-- The triple loop of lines 168-204 folded over the attempt list. -/
def kraken_sweep (attempts : List KrakenAttempt) : KrakenBest :=
  attempts.foldl
    (fun b a =>
      match kraken_attempt_result a with
      | none => b
      | some tc => krakenUpdate b tc.1 tc.2)
    ⟨"", 0⟩

/-- `kraken_api.recognize_handwritten_text` (lines 125-223): resolve the
language, fail when no preprocessed variant could be produced
(lines 144-152), otherwise sweep and gate on a nonempty best text
(lines 206-216).  The attempt list depends on the resolved language. -/
def recognize_handwritten_text (tessdataHas : String → Bool) (language : String)
    (preprocessOk : Bool) (attempts : String → List KrakenAttempt) : JsonResult :=
  let language := tessdata_language_fallback tessdataHas language
  if !preprocessOk then
    { success := false, error := some "Failed to preprocess image" }
  else
    let best := kraken_sweep (attempts language)
    if !best.text.isEmpty then
      { success := true, text := some best.text, confidence := some best.confidence }
    else
      { success := false,
        error := some "Failed to recognize text with any configuration" }

/-- The broad `except` of lines 217-223: a raised exception becomes a
`success: false` record. -/
def recognize_handwritten_text_guarded (body : Except String JsonResult) :
    JsonResult :=
  match body with
  | .ok r => r
  | .error e =>
      { success := false,
        error := some ("Handwritten text recognition failed: " ++ e) }

/-- An HTTP response: status code and JSON body. -/
structure HttpResponse where
  status : ℕ
  body : JsonResult
  deriving Repr, DecidableEq

/-- The `/ocr` Flask endpoint of `kraken_api.py` (lines 225-277).
First component: the response.  Second: whether the request temp file
persists afterwards (`saveLeftFile` says whether a failing `file.save`
had already created it; `removeOk` whether the guarded `os.remove` of
lines 264-267 succeeded).  Recognition itself is total, so its result is
a parameter. -/
def kraken_ocr_endpoint (hasImageField filenameEmpty : Bool)
    (save : Except String Unit) (saveLeftFile removeOk : Bool)
    (recognition : JsonResult) : HttpResponse × Bool :=
  if !hasImageField then
    (⟨400, { success := false, error := some "No image file uploaded" }⟩, false)
  else if filenameEmpty then
    (⟨400, { success := false, error := some "Empty filename" }⟩, false)
  else
    match save with
    | .error e => (⟨500, { success := false, error := some e }⟩, saveLeftFile)
    | .ok _ => (⟨200, recognition⟩, !removeOk)

/- ---------------------------------------------------------------
trocr_server.py
--------------------------------------------------------------- -/

/-- A POST request as seen by `TrOCRHandler.do_POST`. -/
structure PostRequest where
  path : String
  isMultipart : Bool
  hasImageField : Bool
  deriving Repr, DecidableEq

/-- `trocr_server.recognize_text` (lines 43-81): when the model is not
loaded and re-initialization fails, an init-failure record; otherwise
the inference oracle, whose raised exception is caught by the broad
handler (lines 74-81).  The function is total: it never raises. -/
def trocr_server_recognize (modelLoaded retryOk : Bool)
    (inference : Except String String) : JsonResult :=
  if !modelLoaded && !retryOk then
    { success := false, text := some "",
      error := some "Model se nepodařilo inicializovat" }
  else
    match inference with
    | .error e =>
        { success := false, text := some "",
          error := some ("Chyba při rozpoznávání textu: " ++ e) }
    | .ok t => { success := true, text := some t, confidence := some (19/20) }

/-- `TrOCRHandler.do_POST` (lines 113-188).  First component: the
response sent, if any (404 off-path, 415 non-multipart, 400 missing
image, otherwise 200 carrying the `recognize_text` result).  The temp
file is removed by the existence-guarded but exception-unguarded
`os.remove` of lines 156-158, before the 200 response is sent: when
that remove raises (`removeRaises`), the exception propagates out of
`do_POST`, no response is sent at all and the temp file persists.
Second component: whether the temp file persists afterwards. -/
def trocr_server_do_post (req : PostRequest) (modelLoaded retryOk : Bool)
    (inference : Except String String) (removeRaises : Bool) :
    Option HttpResponse × Bool :=
  if req.path ≠ "/ocr" then
    (some ⟨404, { success := false, error := some "Endpoint nenalezen",
                  note := some "Použijte /ocr pro rozpoznávání textu" }⟩, false)
  else if !req.isMultipart then
    (some ⟨415, { success := false,
                  error := some "Nepodporovaný typ obsahu, použijte multipart/form-data" }⟩,
     false)
  else if !req.hasImageField then
    (some ⟨400, { success := false, error := some "Nebyl nahrán žádný obrázek" }⟩,
     false)
  else
    let result := trocr_server_recognize modelLoaded retryOk inference
    if removeRaises then (none, true)
    else (some ⟨200, result⟩, false)

/- ---------------------------------------------------------------
Concrete inputs used by counterexamples
--------------------------------------------------------------- -/

/-- A tesseract installation with only English traineddata: asking for
`deu` fails with a nonzero exit code, any other request succeeds. -/
def engOnlyEngine : String → SimpleBody := fun langP =>
  if langP = "deu" then
    .completed 1 "" "Error opening data file ./tessdata/deu.traineddata"
  else .completed 0 "Hello diary" ""

/-- The selected attempt of the `optimized_trocr.py` sweep: the head of
the quality-sorted result list. -/
def bestSweepAttempt (ocr : ℕ → ℕ → Except String (List (String × ℚ))) :
    AttemptResult :=
  (sortResults (sweepResults ocr)).headD defaultAttempt

set_option maxRecDepth 100000

section

attribute [local semireducible] Rat.mul Rat.add Rat.sub Rat.inv Rat.ofScientific

/-- Whatever attempt the quality-descending sort puts first bounds the
quality score of every attempt in the list. -/
theorem sortResults_headD_max (l : List AttemptResult) (r : AttemptResult)
    (hr : r ∈ l) :
    r.quality_score ≤ ((sortResults l).headD defaultAttempt).quality_score := by
  have hmem : r ∈ sortResults l :=
    (List.perm_insertionSort qualityGE l).mem_iff.mpr hr
  have hsorted : List.Sorted qualityGE (sortResults l) :=
    List.sorted_insertionSort qualityGE l
  cases hs : sortResults l with
  | nil => rw [hs] at hmem; cases hmem
  | cons b t =>
      rw [hs] at hmem hsorted
      rcases List.mem_cons.mp hmem with h | h
      · subst h; simp [hs]
      · have hb := (List.sorted_cons.mp hsorted).1 r h
        simpa [hs, qualityGE] using hb

/-- The `optimized_trocr.py` sweep does pick an attempt of maximal
quality score: the selected attempt is one of the sweep results and its
quality score is at least every attempted combination's. -/
theorem bestSweepAttempt_is_max (ocr : ℕ → ℕ → Except String (List (String × ℚ))) :
    bestSweepAttempt ocr ∈ sweepResults ocr ∧
    ∀ r ∈ sweepResults ocr, r.quality_score ≤ (bestSweepAttempt ocr).quality_score := by
  constructor
  · have hne : sortResults (sweepResults ocr) ≠ [] := by
      intro h
      have hlen := (List.perm_insertionSort qualityGE (sweepResults ocr)).length_eq
      rw [show List.insertionSort qualityGE (sweepResults ocr) =
            sortResults (sweepResults ocr) from rfl, h] at hlen
      simp [sweepResults, sweepTasks, preprocessing_variants, sweepOrientations] at hlen
    have : (sortResults (sweepResults ocr)).headD defaultAttempt ∈
        sortResults (sweepResults ocr) := by
      cases hs : sortResults (sweepResults ocr) with
      | nil => exact absurd hs hne
      | cons b t => simp
    exact (List.perm_insertionSort qualityGE (sweepResults ocr)).mem_iff.mp this
  · intro r hr
    exact sortResults_headD_max _ r hr

/-- `recognize_text_parallel` returns exactly the selected attempt's
post-processed text, confidence, variant and orientation. -/
theorem recognize_text_parallel_eq (pp : String → String)
    (ocr : ℕ → ℕ → Except String (List (String × ℚ))) :
    recognize_text_parallel pp ocr =
      ((pp (bestSweepAttempt ocr).text, (bestSweepAttempt ocr).confidence,
        (bestSweepAttempt ocr).variant, (bestSweepAttempt ocr).orientation)) := by
  rfl

/-- Claim C1: the sweep of `trocr.perform_handwriting_recognition` is
claimed to return the combination whose computed quality score is
greatest.  On `c1Oracle` the code keeps combination (0,0) and returns
its text, although the attempted combination (0,90) has a strictly
greater quality score: the update of lines 388-393 compares the new
quality score against the stored `best_confidence` instead of the best
quality score. -/
theorem C1_trocr_keeps_nonmaximal_quality :
    (trocrSweep c1Oracle).best_combo = some (0, 0) ∧
    (perform_handwriting_recognition id c1Oracle).text = some c1TextA ∧
    (0, 90) ∈ trocrCombos ∧
    trocrQuality (c1Oracle 0 0).1 (c1Oracle 0 0).2 <
      trocrQuality (c1Oracle 0 90).1 (c1Oracle 0 90).2 := by
  refine ⟨by decide, by decide, by decide, by decide⟩

/-- Claim C2 counterexample: `optimized_trocr.py` invoked without an
image-path argument prints only its usage message and exits; no JSON
object reaches stdout. -/
theorem C2_no_json_without_arguments :
    optimized_cli ["optimized_trocr.py"] (fun _ => true) none id (fun _ _ => .ok []) =
      .ok none := by
  rfl

/-- Claim C2 (amended): `trocr.py`, `light-ocr.py` and the fallback
script print exactly one JSON object on every invocation, but
`simple_trocr.py` and `real_trocr.py` print none when invoked without an
image path, and `optimized_trocr.py` prints none when invoked without an
image path or on a nonexistent image file. -/
theorem C2_single_json_object :
    (∀ args raised pp oracle, (trocr_main args raised pp oracle).isSome = true) ∧
    (∀ args th fe ilo dc sc, (light_ocr_main args th fe ilo dc sc).isSome = true) ∧
    (∀ args d1 m1 m2 d2 choice,
      (some (fallback_script args d1 m1 m2 d2 choice)).isSome = true) ∧
    (∀ args fe body,
      (simple_trocr_script args fe body).1.isSome = decide (2 ≤ args.length)) ∧
    (∀ args fe body,
      (real_trocr_script args fe body).1.isSome = decide (2 ≤ args.length)) ∧
    (∀ args fe pp ocr,
      jsonEmitted (optimized_cli args fe none pp ocr) =
        (decide (2 ≤ args.length) && fe (args.getD 1 ""))) := by
  refine ⟨?_, ?_, ?_, ?_, ?_, ?_⟩
  · intro args raised pp oracle
    unfold trocr_main
    split <;> simp
  · intro args th fe ilo dc sc
    unfold light_ocr_main
    split <;> simp
  · intro args d1 m1 m2 d2 choice
    simp
  · intro args fe body
    unfold simple_trocr_script
    by_cases h : args.length < 2
    · simp [h, decide_eq_false (by omega : ¬ 2 ≤ args.length)]
    · rw [if_neg h, decide_eq_true (by omega : 2 ≤ args.length)]
      dsimp only
      split
      · simp
      · split <;> (try split) <;> simp
  · intro args fe body
    unfold real_trocr_script
    by_cases h : args.length < 2
    · simp [h, decide_eq_false (by omega : ¬ 2 ≤ args.length)]
    · rw [if_neg h, decide_eq_true (by omega : 2 ≤ args.length)]
      dsimp only
      split
      · simp
      · split <;> (try split) <;> simp
  · intro args fe pp ocr
    unfold optimized_cli
    by_cases h : args.length < 2
    · rw [if_pos h, decide_eq_false (by omega : ¬ 2 ≤ args.length)]
      rfl
    · rw [if_neg h, decide_eq_true (by omega : 2 ≤ args.length)]
      cases hfe : fe (args.getD 1 "") <;> rfl

/-- Claim C3 counterexample: `optimized_trocr.main` has no exception
handler; an exception raised by the process-pool machinery propagates
out of the script instead of being converted to a `success: false`
result. -/
theorem C3_pool_exception_propagates :
    optimized_cli ["optimized_trocr.py", "diary.png"] (fun _ => true)
      (some "BrokenProcessPool") id (fun _ _ => .ok []) =
      .error "BrokenProcessPool" := by
  rfl

/-- Claim C3 (amended): the recognition entry points of `trocr.py`,
`kraken_api.py`, `light-ocr.py`, `simple_trocr.py` and `real_trocr.py`
convert every raised exception into a `success: false` record, and the
worker of `optimized_trocr.py` catches per-attempt exceptions; only
exceptions raised in `optimized_trocr.main` outside the workers
propagate. -/
theorem C3_handlers_return_error_objects :
    (∀ e, perform_handwriting_recognition_guarded (.error e) =
      { success := false, error := some e }) ∧
    (∀ e, recognize_handwritten_text_guarded (.error e) =
      { success := false,
        error := some ("Handwritten text recognition failed: " ++ e) }) ∧
    (∀ th sc p l e,
      perform_quick_ocr th (fun _ => true) true (fun _ => .error e) sc p l =
        { success := false, error := some e }) ∧
    (∀ p rest e,
      (simple_trocr_script ("simple_trocr.py" :: p :: rest) (fun _ => true)
        (fun _ => .popenRaised e)).1 =
      some { success := false, text := some "",
             error := some ("Zpracování selhalo: " ++ e) }) ∧
    (∀ p rest e,
      (real_trocr_script ("real_trocr.py" :: p :: rest) (fun _ => true)
        (fun _ => .popenRaised e)).1 =
      some { success := false, text := some "",
             error := some ("Zpracování selhalo: " ++ e) }) ∧
    (∀ v o e, process_image_variant (.error e) v o =
      { variant := v, orientation := o, text := "", confidence := 0,
        quality_score := 0, error := some e }) ∧
    (∀ ml ro e, (trocr_server_recognize ml ro (.error e)).success = false) := by
  refine ⟨fun e => rfl, fun e => rfl, fun th sc p l e => rfl,
    fun p rest e => ?_, fun p rest e => ?_, fun v o e => rfl, fun ml ro e => ?_⟩
  · unfold simple_trocr_script
    rw [if_neg (by simp)]
    rfl
  · unfold real_trocr_script
    rw [if_neg (by simp)]
    rfl
  · unfold trocr_server_recognize
    split <;> rfl

/-- Claim C4 counterexample: `light-ocr.py`, on an image for which the
word-level data carries no word and the plain string extraction returns
the empty string, emits `success: true` with an empty text. -/
theorem C4_light_ocr_success_with_empty_text :
    perform_quick_ocr (fun _ => true) (fun _ => true) true (fun _ => .ok [])
      (fun _ => .ok "") "diary.png" "eng" =
    { success := true, text := some "", confidence := some 50 } := by
  rfl

/-- Claim C4 (amended): a `success: true` result always carries a text
field set from the recognition output, and `kraken_api.py`,
`optimized_trocr.py` and `trocr.py` emit `success: true` only with a
nonempty text; `light-ocr.py` (and the tesseract-stdout scripts) may
report success with an empty text. -/
theorem C4_success_carries_text :
    (∀ th lang pOk atts,
      (recognize_handwritten_text th lang pOk atts).success = true →
      ∃ t, (recognize_handwritten_text th lang pOk atts).text = some t ∧
        t.isEmpty = false) ∧
    (∀ args fe pp ocr j, optimized_cli args fe none pp ocr = .ok (some j) →
      j.success = true → ∃ t, j.text = some t ∧ t.isEmpty = false) ∧
    (∀ pp oracle,
      (perform_handwriting_recognition pp oracle).success = true →
      (perform_handwriting_recognition pp oracle).text =
        some (pp (trocrSweep oracle).best_text) ∧
      (trocrSweep oracle).best_text.isEmpty = false) := by
  refine ⟨?_, ?_, ?_⟩
  · intro th lang pOk atts h
    unfold recognize_handwritten_text at h ⊢
    dsimp only at h ⊢
    by_cases hp : (!pOk) = true
    · rw [if_pos hp] at h
      cases h
    · rw [if_neg hp] at h ⊢
      by_cases hb :
          (!(kraken_sweep
              (atts (tessdata_language_fallback th lang))).text.isEmpty) = true
      · rw [if_pos hb] at h ⊢
        exact ⟨_, rfl, by simpa using hb⟩
      · rw [if_neg hb] at h
        cases h
  · intro args fe pp ocr j hj hs
    unfold optimized_cli at hj
    split at hj
    · cases hj
    · split at hj
      · cases hj
      · injection hj with hj
        injection hj with hj
        subst hj
        simp only at hs
        refine ⟨(recognize_text_parallel pp ocr).1, rfl, ?_⟩
        simpa using hs
  · intro pp oracle h
    unfold perform_handwriting_recognition at h ⊢
    dsimp only at h ⊢
    by_cases hb : (trocrSweep oracle).best_text.isEmpty = true
    · rw [if_pos hb] at h
      cases h
    · rw [if_neg hb] at h ⊢
      exact ⟨rfl, by simpa using hb⟩

/-- Witness for the amended claim C4: a concrete kraken run whose single
attempt reads the word `hi` at raw confidence 80 succeeds, and the
theorem yields its nonempty text. -/
theorem C4_success_carries_text_w :
    ∃ t, (recognize_handwritten_text (fun _ => true) "eng" true
      (fun _ => [.evaluated [("hi", 80)] (.ok "")])).text = some t ∧
      t.isEmpty = false :=
  C4_success_carries_text.1 (fun _ => true) "eng" true
    (fun _ => [.evaluated [("hi", 80)] (.ok "")]) (by decide)

/-- Claim C5: a POST `/ocr` request whose form data lacks the image
field gets HTTP 400 with a `success: false` JSON body from both
`kraken_api.py` and `trocr_server.py`. -/
theorem C5_missing_image_field_http_400 :
    (∀ fnEmpty save sl rm recog,
      (kraken_ocr_endpoint false fnEmpty save sl rm recog).1 =
        ⟨400, { success := false, error := some "No image file uploaded" }⟩) ∧
    (∀ ml ro inference removeRaises,
      (trocr_server_do_post ⟨"/ocr", true, false⟩ ml ro inference removeRaises).1 =
        some ⟨400, { success := false, error := some "Nebyl nahrán žádný obrázek" }⟩) :=
  ⟨fun _ _ _ _ _ => rfl, fun _ _ _ _ => rfl⟩

/-- Claim C6 counterexample: `simple_trocr.py` does not consult the
tessdata directory; requesting `deu` on an installation that only has
English traineddata passes `deu` straight to tesseract and returns a
failure instead of substituting `eng` and proceeding. -/
theorem C6_simple_trocr_missing_traineddata_fails :
    simple_lang_param "deu" = "deu" ∧
    (simple_trocr_script ["simple_trocr.py", "diary.png", "deu"] (fun _ => true)
      engOnlyEngine).1 =
    some { success := false, text := some "",
           error := some
             "Tesseract vrátil chybu: Error opening data file ./tessdata/deu.traineddata" } :=
  ⟨rfl, rfl⟩

/-- Claim C6 (amended): `kraken_api.py` and `light-ocr.py` (and the
inner `recognize_text` of `trocr.py`, which shares the same four lines)
substitute `eng` for a requested language whose traineddata is absent
and proceed with recognition; `simple_trocr.py`, `real_trocr.py` and
`optimized_trocr.py` make no such check. -/
theorem C6_traineddata_fallback_where_checked :
    ∀ (tessdataHas : String → Bool) (language : String),
      language ≠ "eng" → tessdataHas language = false →
      tessdata_language_fallback tessdataHas language = "eng" ∧
      (∀ pOk atts, recognize_handwritten_text tessdataHas language pOk atts =
        recognize_handwritten_text tessdataHas "eng" pOk atts) ∧
      (∀ fe ilo dc sc p, perform_quick_ocr tessdataHas fe ilo dc sc p language =
        perform_quick_ocr tessdataHas fe ilo dc sc p "eng") := by
  intro th lang hne hth
  have h1 : tessdata_language_fallback th lang = "eng" := by
    unfold tessdata_language_fallback
    rw [if_pos ⟨hne, hth⟩]
  have h2 : tessdata_language_fallback th "eng" = "eng" := by
    unfold tessdata_language_fallback
    rw [if_neg (by simp)]
  refine ⟨h1, fun pOk atts => ?_, fun fe ilo dc sc p => ?_⟩
  · unfold recognize_handwritten_text
    rw [h1, h2]
  · unfold perform_quick_ocr
    rw [h1, h2]

/-- Witness for the amended claim C6: requesting `deu` with no
traineddata at all resolves to `eng`. -/
theorem C6_traineddata_fallback_where_checked_w :
    tessdata_language_fallback (fun _ => false) "deu" = "eng" :=
  (C6_traineddata_fallback_where_checked (fun _ => false) "deu" (by decide) rfl).1

/-- Claim C7 counterexample: when the tesseract binary is missing,
`subprocess.Popen` raises after `simple_trocr.py` created its temp file;
the handler skips the `os.unlink`, so the temp file persists after the
script returns its failure result. -/
theorem C7_temp_file_persists_on_exception :
    simple_trocr_script ["simple_trocr.py", "diary.png"] (fun _ => true)
      (fun _ => .popenRaised "FileNotFoundError: tesseract") =
    (some { success := false, text := some "",
            error := some "Zpracování selhalo: FileNotFoundError: tesseract" }, true) := by
  rfl

/-- Claim C7 (amended): on every run in which no exception interrupts
processing between temp-file creation and the removal point and the
removal itself succeeds, the temp file is removed before the
response/result is returned, on recognition-success and
recognition-failure paths alike; but an exception in that window, or a
failing removal (swallowed by `except: pass` in `real_trocr.py`, warned
and ignored in `kraken_api.py`, propagating before the response in
`trocr_server.py`, replacing the result in `simple_trocr.py`), leaves
the temp file behind. -/
theorem C7_temp_removed_on_completed_runs :
    (∀ args fe rc out err,
      (simple_trocr_script args fe (fun _ => .completed rc out err)).2 = false) ∧
    (∀ p rest e,
      (simple_trocr_script ("simple_trocr.py" :: p :: rest) (fun _ => true)
        (fun _ => .unlinkRaised e)).2 = true) ∧
    (∀ args fe rc out err,
      (real_trocr_script args fe (fun _ => .completed rc out err true)).2 = false) ∧
    (∀ p rest rc out err,
      (real_trocr_script ("real_trocr.py" :: p :: rest) (fun _ => true)
        (fun _ => .completed rc out err false)).2 = true) ∧
    (∀ hasImg fnE sl recog,
      (kraken_ocr_endpoint hasImg fnE (.ok ()) sl true recog).2 = false) ∧
    (∀ sl recog,
      (kraken_ocr_endpoint true false (.ok ()) sl false recog).2 = true) ∧
    (∀ req ml ro inference,
      (trocr_server_do_post req ml ro inference false).2 = false) ∧
    (∀ ml ro inference,
      (trocr_server_do_post ⟨"/ocr", true, true⟩ ml ro inference true).2 = true) := by
  refine ⟨?_, ?_, ?_, ?_, ?_, ?_, ?_, ?_⟩
  · intro args fe rc out err
    unfold simple_trocr_script
    split
    · rfl
    · dsimp only
      split
      · rfl
      · split <;> rfl
  · intro p rest e
    unfold simple_trocr_script
    rw [if_neg (by simp)]
    rfl
  · intro args fe rc out err
    unfold real_trocr_script
    split
    · rfl
    · dsimp only
      split
      · rfl
      · split <;> rfl
  · intro p rest rc out err
    unfold real_trocr_script
    rw [if_neg (by simp)]
    dsimp only
    rw [if_neg (by simp)]
    split <;> rfl
  · intro hasImg fnE sl recog
    unfold kraken_ocr_endpoint
    split
    · rfl
    · split <;> rfl
  · intro sl recog
    rfl
  · intro req ml ro inference
    unfold trocr_server_do_post
    split
    · rfl
    · split
      · rfl
      · split <;> rfl
  · intro ml ro inference
    rfl

/-- Claim C8: the fallback script always reports `success: true` with
confidence 0.85 and no error, and its text is a member of the canned
Czech list when the language argument is `ces`, of the canned English
list otherwise. -/
theorem C8_fallback_canned_placeholder :
    ∀ (args : List String) (d1 m1 m2 d2 : ℕ) (choice : Fin 4),
      (fallback_script args d1 m1 m2 d2 choice).success = true ∧
      (fallback_script args d1 m1 m2 d2 choice).confidence = some (17/20) ∧
      (fallback_script args d1 m1 m2 d2 choice).error = none ∧
      ∃ t, (fallback_script args d1 m1 m2 d2 choice).text = some t ∧
        t ∈ (if args.getD 2 "eng" = "ces" then czech_texts d1 m1
             else english_texts m2 d2) := by
  intro args d1 m1 m2 d2 choice
  refine ⟨rfl, rfl, rfl, ?_⟩
  unfold fallback_script
  dsimp only
  by_cases h : args.getD 2 "eng" = "ces"
  · rw [if_pos h, if_pos h]
    exact ⟨_, rfl, List.get_mem _ _ _⟩
  · rw [if_neg h, if_neg h]
    exact ⟨_, rfl, List.get_mem _ _ _⟩

/-- Claim C9: a raised per-attempt exception in the parallel sweep
worker yields the zero-score record (empty text, confidence 0, quality
score 0), and every task of the sweep contributes a result, so a
failing attempt never aborts the sweep. -/
theorem C9_worker_failure_zero_score :
    (∀ (v o : ℕ) (e : String),
      process_image_variant (.error e) v o =
        { variant := v, orientation := o, text := "", confidence := 0,
          quality_score := 0, error := some e }) ∧
    (∀ ocr, (sweepResults ocr).length = sweepTasks.length) :=
  ⟨fun _ _ _ => rfl, fun _ => by simp [sweepResults]⟩

/-- Claim C10: a multipart POST `/ocr` request carrying an image field
is answered either with HTTP 200 whose body is the total
`recognize_text` result, or (when the unguarded temp-file remove raises
first) with no response at all — never with a 5xx status; a
model-initialization failure shows up only as `success: false` in the
200 body. -/
theorem C10_trocr_server_ocr_always_200 :
    ∀ (ml ro : Bool) (inference : Except String String) (removeRaises : Bool),
      (trocr_server_do_post ⟨"/ocr", true, true⟩ ml ro inference removeRaises).1 =
        (if removeRaises then none
         else some ⟨200, trocr_server_recognize ml ro inference⟩) ∧
      (trocr_server_recognize false false inference).success = false := by
  intro ml ro inference removeRaises
  cases removeRaises <;> exact ⟨rfl, rfl⟩

end
